import Mathlib

/-!
Verification development for the DocCrawler repository (DocScoop).

This file shallowly embeds the crawl traversal engine (`docscoop.py`,
class `DocScoop`) and the anonymous transport manager
(`anonymous_connection.py`, class `AnonymousConnection`) and proves or
refutes the specified properties about them.

Library functions of the Python standard library that the code calls
(`urllib.parse.urlparse`, `urllib.parse.urljoin`) are modelled as an
abstract structure of string functions (`UrlLib`), since their internals
are not part of the repository; `os.path.splitext` is modelled concretely
because the extension-based classification depends on its exact shape.
The network is modelled as an explicit "world" function from
(session epoch, URL) to a fetch result, and each network request is
recorded in a fetch log so that properties about which URLs are fetched,
and how often, can be stated.
-/

/-- Substring containment, modelling the Python expression `pat in s`. -/
def strContains (s pat : String) : Bool :=
  (List.range (s.length + 1)).any (fun i => List.isPrefixOf pat.toList (s.toList.drop i))

/-- Index of the last occurrence of a character in a list, if any
(auxiliary for `splitextExt`, counting from `i`). -/
def lastIndexOfAux (c : Char) : List Char → Nat → Option Nat
  | [], _ => none
  | a :: rest, i =>
    match lastIndexOfAux c rest (i + 1) with
    | some j => some j
    | none => if a = c then some i else none

/-- Index of the last occurrence of a character in a list, if any. -/
def lastIndexOf (l : List Char) (c : Char) : Option Nat :=
  lastIndexOfAux c l 0

/-- Extension part of `os.path.splitext(p)` (its second component): the
suffix of `p` starting at the last dot, provided that dot lies after the
last path separator and some non-dot character of the basename precedes
it; otherwise the empty string.  Mirrors CPython `posixpath.splitext`. -/
def splitextExt (p : String) : String :=
  let cs := p.toList
  let sepIdx : Int := match lastIndexOf cs '/' with
    | some i => (i : Int)
    | none => -1
  let dotIdx : Int := match lastIndexOf cs '.' with
    | some i => (i : Int)
    | none => -1
  if sepIdx < dotIdx then
    let dI := dotIdx.toNat
    let fI := (sepIdx + 1).toNat
    if ((cs.drop fI).take (dI - fI)).any (fun a => a != '.') then
      String.mk (cs.drop dI)
    else ""
  else ""

/-- ASCII lowercasing of a string, modelling Python `str.lower()` on the
extension strings the code compares (all ASCII). -/
def lowerStr (s : String) : String := String.mk (s.toList.map Char.toLower)

/-- Abstract model of the `urllib.parse` functions used by the code:
`urlparse(u).scheme`, `urlparse(u).netloc`, `urlparse(u).path` and
`urljoin(base, href)`.  These are Python standard-library functions, not
code of this repository, so they are kept abstract; `join base href` is
the normalized absolute form of `href` resolved against `base`. -/
structure UrlLib where
  scheme : String → String
  netloc : String → String
  pathOf : String → String
  join : String → String → String

/-- `DocScoop.DOCUMENT_EXTENSIONS`: file extensions to look for. -/
def DOCUMENT_EXTENSIONS : List String :=
  [".pdf", ".txt", ".doc", ".docx", ".rtf", ".csv", ".xls", ".xlsx"]

/-- `DocScoop.IGNORE_EXTENSIONS`: file extensions to ignore. -/
def IGNORE_EXTENSIONS : List String :=
  [".jpg", ".jpeg", ".png", ".gif", ".bmp", ".svg", ".mp4", ".avi", ".mov"]

/-- Mutable crawl state of a `DocScoop` instance, together with an
instrumentation log: `fetchLog` records, in order, every URL for which a
network request (`self.session.get`) was issued, and `rotations` counts
the calls to `renew_tor_identity`. -/
structure CrawlState where
  visited : List String
  documents : List String
  fetchLog : List String
  rotations : Nat
deriving Repr, DecidableEq

/-- Initial state of a fresh `DocScoop` (empty visited and document sets). -/
def initState : CrawlState := ⟨[], [], [], 0⟩

/-- `DocScoop.is_valid_url`: the URL parses with a netloc and a scheme and
has not been visited. -/
def isValidUrl (L : UrlLib) (s : CrawlState) (url : String) : Bool :=
  (L.netloc url != "") && (L.scheme url != "") && !(s.visited.contains url)

/-- `DocScoop.get_file_extension`: extension of the path of the URL, lowercased. -/
def getFileExtension (L : UrlLib) (url : String) : String :=
  lowerStr (splitextExt (L.pathOf url))

/-- `DocScoop.is_document_url`. -/
def isDocumentUrl (L : UrlLib) (url : String) : Bool :=
  DOCUMENT_EXTENSIONS.contains (getFileExtension L url)

/-- `DocScoop.should_ignore_url`. -/
def shouldIgnoreUrl (L : UrlLib) (url : String) : Bool :=
  IGNORE_EXTENSIONS.contains (getFileExtension L url)

/-- Content-type test on lines 101-103 of `docscoop.py`: the declared
content type indicates a known document kind. -/
def ctIsDocument (ct : String) : Bool :=
  strContains ct "application/pdf" || strContains ct "application/msword" ||
    strContains ct "application/vnd.openxmlformats"

/-- Result of one HTTP GET in the crawl: either an exception
(network-level failure), or a response with a status code, a declared
content type, and — when the body is hypertext — the href attributes of
its anchor tags in document order. -/
inductive FetchResult where
  | err : FetchResult
  | ok (status : Nat) (contentType : String) (hrefs : List String) : FetchResult
deriving Repr, DecidableEq

/-- A crawl world: what `session.get` yields for a URL, possibly depending
on the session epoch (the number of identity rotations performed so far,
since each rotation is followed by obtaining a fresh session). -/
def CrawlWorld := Nat → String → FetchResult

/-- Python `set.add` on the list representation of a set. -/
def addSet (x : String) (l : List String) : List String :=
  if l.contains x then l else l ++ [x]

/-- One iteration of the link-classification loop (lines 113-126 of
`docscoop.py`): resolve the href against the page URL, skip it if its
extension is in the ignore list, record it as a document if its extension
is in the allow-list, and otherwise recurse (via `rec`) at `depth + 1`
when `depth < maxDepth`. -/
def processLink (L : UrlLib) (maxDepth : Nat)
    (rec : String → Nat → CrawlState → CrawlState)
    (url : String) (depth : Nat) (s : CrawlState) (href : String) : CrawlState :=
  let next := L.join url href
  if shouldIgnoreUrl L next then s
  else if isDocumentUrl L next then { s with documents := addSet next s.documents }
  else if depth < maxDepth then rec next (depth + 1) s
  else s

/-- `DocScoop.crawl_page`, with an explicit fuel argument to make the
recursion structural (the Python recursion terminates because `visited`
grows, so any sufficiently large fuel yields the same result; fuel
exhaustion returns the state unchanged).  `anon` is `self.anonymous`. -/
def crawlPage (L : UrlLib) (w : CrawlWorld) (anon : Bool) (maxDepth : Nat) :
    Nat → String → Nat → CrawlState → CrawlState
  | 0, _, _, s => s
  | fuel + 1, url, depth, s =>
    if depth > maxDepth || !(isValidUrl L s url) then s
    else
      -- mark visited, then issue the network request
      let s1 : CrawlState :=
        { s with visited := s.visited ++ [url], fetchLog := s.fetchLog ++ [url] }
      match w s1.rotations url with
      | FetchResult.err =>
        if anon && decide (depth ≤ 1) then
          -- renew identity, obtain a fresh session, and re-invoke on the same URL
          crawlPage L w anon maxDepth fuel url depth
            { s1 with rotations := s1.rotations + 1 }
        else s1
      | FetchResult.ok status ct hrefs =>
        if status != 200 then s1
        else if isDocumentUrl L url || ctIsDocument ct then
          { s1 with documents := addSet url s1.documents }
        else if strContains ct "text/html" then
          hrefs.foldl
            (fun t href =>
              processLink L maxDepth (crawlPage L w anon maxDepth fuel) url depth t href)
            s1
        else s1
termination_by structural fuel => fuel

/-- `DocScoop.scan_url`, step 1 (crawl phase only): `crawl_page` is invoked
on the seed with the default starting depth 1. -/
def scanUrlCrawl (L : UrlLib) (w : CrawlWorld) (anon : Bool) (maxDepth fuel : Nat)
    (seed : String) : CrawlState :=
  crawlPage L w anon maxDepth fuel seed 1 initState

/-- Outcome of one download attempt (`self.session.get(url, stream=True)`
together with writing the body to a temporary file): an exception, or a
response with a status code, a declared content type, and the
system-chosen base name of the temporary file (to which the suffix is
appended). -/
inductive DlOutcome where
  | exc : DlOutcome
  | ok (status : Nat) (contentType : String) (tmpBase : String) : DlOutcome
deriving Repr, DecidableEq

/-- A download world: the outcome of the attempt made with session epoch
`k` (the number of identity rotations performed so far). -/
def DlWorld := Nat → DlOutcome

/-- Lines 147-158 of `docscoop.py`: the suffix for the temporary file —
the extension of the URL path if nonempty, otherwise chosen from the
declared content type, defaulting to `.txt`. -/
def chooseExt (L : UrlLib) (url ct : String) : String :=
  let e := getFileExtension L url
  if e != "" then e
  else if strContains ct "application/pdf" then ".pdf"
  else if strContains ct "application/msword" then ".doc"
  else if strContains ct "application/vnd.openxmlformats" then ".docx"
  else ".txt"

/-- `DocScoop.download_document`, with fuel for the (unbounded) retry
recursion.  `k` is the current session epoch and doubles as the count of
identity rotations performed so far; the result is `none` when the fuel
runs out (the Python recursion does not terminate in that case), and
otherwise `some (r, k)` where `r` is the returned temporary path (or
`none` for the Python return value `None`) and `k` the total number of
identity rotations performed. -/
def downloadDocument (L : UrlLib) (anon : Bool) (w : DlWorld) (url : String) :
    Nat → Nat → Option (Option String × Nat)
  | 0, _ => none
  | fuel + 1, k =>
    match w k with
    | DlOutcome.exc =>
      if anon then
        -- renew identity, obtain a fresh session, and retry the identical request
        downloadDocument L anon w url fuel (k + 1)
      else some (none, k)
    | DlOutcome.ok status ct base =>
      if status != 200 then some (none, k)
      else some (some (base ++ chooseExt L url ct), k)
termination_by structural fuel => fuel

/-- The two proxy environment variables the transport manager mutates
(`HTTP_PROXY` and `HTTPS_PROXY` in `os.environ`); `none` models an unset
variable. -/
structure Env where
  httpProxy : Option String
  httpsProxy : Option String
deriving Repr, DecidableEq

/-- Python truthiness of `os.environ.get(...)`: `None` and the empty
string are falsy. -/
def truthy : Option String → Bool
  | none => false
  | some s => s != ""

/-- The SOCKS proxy URL written into the environment by
`_configure_tor_for_requests`. -/
def socksUrl (port : Nat) : String := "socks5://127.0.0.1:" ++ toString port

/-- State of an `AnonymousConnection` instance. -/
structure AConn where
  useTor : Bool
  torPort : Nat
  controlPort : Nat
  torPassword : Option String
  torProcess : Bool
  previousProxy : Option (Option String × Option String)
deriving Repr, DecidableEq

/-- `AnonymousConnection._configure_tor_for_requests`: overwrite both
proxy variables with the SOCKS URL, then verify connectivity with one
live request (`verifyOk` is whether that request succeeds).  On failure
the except handler pops both proxy variables (lines 137-138), but its
next line evaluates `socket._socketobject` / `socket._orig_socket`,
neither of which exists in Python 3, so the handler itself raises
AttributeError before the line `self.use_tor = False` is reached.
`Except.error` carries the connection and environment state at the
moment that exception escapes: both variables popped and `useTor` still
true. -/
def configureTorForRequests (verifyOk : Bool) (c : AConn) (env : Env) :
    Except (AConn × Env) (AConn × Env) :=
  let env1 : Env :=
    { httpProxy := some (socksUrl c.torPort), httpsProxy := some (socksUrl c.torPort) }
  if verifyOk then Except.ok (c, env1)
  else Except.error (c, { httpProxy := none, httpsProxy := none })

/-- `AnonymousConnection.start_tor`.  `torRunning` is the outcome of the
SOCKS-port probe (`_is_tor_running`), `launchOk` the outcome of
`stem.process.launch_tor_with_config` when a launch is requested, and
`verifyOk` the outcome of the live verification request.  `Except.ok` is
a normal return; `Except.error` is the AttributeError escaping from the
verification-failure handler of `_configure_tor_for_requests`, carrying
the state visible when it propagates. -/
def startTor (torRunning launchOk verifyOk launch : Bool) (c : AConn) (env : Env) :
    Except (AConn × Env) (AConn × Env) :=
  if !c.useTor then Except.ok (c, env)
  else if !torRunning then Except.ok ({ c with useTor := false }, env)
  else
    let c1 := { c with previousProxy := some (env.httpProxy, env.httpsProxy) }
    if launch && !launchOk then Except.ok ({ c1 with useTor := false }, env)
    else
      let c2 := if launch then { c1 with torProcess := true } else c1
      configureTorForRequests verifyOk c2 env

/-- `AnonymousConnection.stop_tor`: kill the launched process if any, and
restore each saved proxy variable — setting it when the saved value is
truthy and popping it otherwise. -/
def stopTor (c : AConn) (env : Env) : AConn × Env :=
  if !c.useTor then (c, env)
  else
    let c1 := if c.torProcess then { c with torProcess := false } else c
    match c1.previousProxy with
    | none => (c1, env)
    | some (ph, ps) =>
      (c1, { httpProxy := if truthy ph then ph else none,
             httpsProxy := if truthy ps then ps else none })

/-- Where `AnonymousConnection.renew_tor_identity` can first raise inside
its `try` block: connecting to the control port, authenticating, or
sending the NEWNYM signal; `ok` means none of them raised. -/
inductive RenewOutcome where
  | ok : RenewOutcome
  | connectFailure : RenewOutcome
  | authFailure : RenewOutcome
  | signalFailure : RenewOutcome
deriving Repr, DecidableEq

/-- `AnonymousConnection.renew_tor_identity`, returning the total number
of time units slept before returning (`time.sleep(5)` executes only after
connect, authenticate and signal have all succeeded; any exception jumps
to the handler, which returns without sleeping). -/
def renewTorIdentity (c : AConn) (outcome : RenewOutcome) : Nat :=
  if !c.useTor then 0
  else
    match outcome with
    | RenewOutcome.ok => 5
    | RenewOutcome.connectFailure => 0
    | RenewOutcome.authFailure => 0
    | RenewOutcome.signalFailure => 0

/-- The rotation pool of anonymous user agents in
`AnonymousConnection._get_random_user_agent`. -/
def userAgentPool : List String :=
  ["Mozilla/5.0 (Windows NT 10.0; Win64; x64) AppleWebKit/537.36 (KHTML, like Gecko) Chrome/91.0.4472.124 Safari/537.36",
   "Mozilla/5.0 (Windows NT 10.0; Win64; x64; rv:89.0) Gecko/20100101 Firefox/89.0",
   "Mozilla/5.0 (Macintosh; Intel Mac OS X 10_15_7) AppleWebKit/605.1.15 (KHTML, like Gecko) Version/14.1.1 Safari/605.1.15",
   "Mozilla/5.0 (X11; Linux x86_64; rv:89.0) Gecko/20100101 Firefox/89.0",
   "Mozilla/5.0 (Windows NT 10.0; Win64; x64) AppleWebKit/537.36 (KHTML, like Gecko) Chrome/91.0.4472.124 Safari/537.36 Edg/91.0.864.59"]

/-- The single stable user agent used without Tor in
`AnonymousConnection.get_session`. -/
def directUserAgent : String :=
  "Mozilla/5.0 (Windows NT 10.0; Win64; x64) AppleWebKit/537.36 (KHTML, like Gecko) Chrome/91.0.4472.124 Safari/537.36"

/-- Headers set on the session by `AnonymousConnection.get_session`
(`none` models a header that is not set). -/
structure SessionHeaders where
  userAgent : String
  acceptLanguage : Option String
  dnt : Option String
  upgradeInsecureRequests : Option String
deriving Repr, DecidableEq

/-- `AnonymousConnection.get_session`: with Tor, a random user agent from
the pool (`pick` models the random draw) plus the privacy headers;
without Tor, the single stable user agent and nothing else. -/
def getSession (c : AConn) (pick : Nat) : SessionHeaders :=
  if c.useTor then
    { userAgent := userAgentPool.getD (pick % userAgentPool.length) ""
      acceptLanguage := some "en-US,en;q=0.5"
      dnt := some "1"
      upgradeInsecureRequests := some "1" }
  else
    { userAgent := directUserAgent
      acceptLanguage := none
      dnt := none
      upgradeInsecureRequests := none }

/-- Invariant of the crawl state: no URL has been fetched twice, and every
fetched URL is in the visited set (it was added there before the request
was issued and the set never shrinks). -/
def CrawlInv (s : CrawlState) : Prop :=
  s.fetchLog.Nodup ∧ ∀ u, u ∈ s.fetchLog → u ∈ s.visited

/-- Growth relation between crawl states: the visited set and the fetch
log only gain elements. -/
def Grows (s t : CrawlState) : Prop :=
  (∀ u, u ∈ s.visited → u ∈ t.visited) ∧ (∀ u, u ∈ s.fetchLog → u ∈ t.fetchLog)

/-- Concrete `UrlLib` instance used for witnesses and counterexamples:
every string parses with a scheme and a netloc, the path is the string
itself, and resolution returns the href unchanged. -/
def simpleLib : UrlLib :=
  { scheme := fun _ => "http"
    netloc := fun _ => "host"
    pathOf := fun u => u
    join := fun _ href => href }

/-- Concrete crawl world: the seed is a hypertext page linking to a
document, an image and a second page, which links to one more document. -/
def wSite : CrawlWorld := fun _ u =>
  if u = "seed" then FetchResult.ok 200 "text/html" ["a.pdf", "b.jpg", "page2"]
  else if u = "page2" then FetchResult.ok 200 "text/html" ["c.docx"]
  else FetchResult.ok 200 "text/html" []

/-- Concrete crawl world in which the first request (session epoch 0)
raises a network error and every request after an identity rotation would
succeed and yield a document. -/
def wFailThenDoc : CrawlWorld := fun k _ =>
  if k = 0 then FetchResult.err else FetchResult.ok 200 "application/pdf" []

/-- Concrete `AnonymousConnection` with Tor enabled and default ports. -/
def connAnon : AConn :=
  { useTor := true
    torPort := 9050
    controlPort := 9051
    torPassword := none
    torProcess := false
    previousProxy := none }

/-- Concrete download world in which every attempt raises. -/
def wDlExc : DlWorld := fun _ => DlOutcome.exc

/-- Concrete download world in which every attempt succeeds with a PDF
content type and a fixed temporary base name. -/
def wDlPdf : DlWorld := fun _ => DlOutcome.ok 200 "application/pdf" "tmpbase"

/-! ## Basic lemmas about the crawl state -/

lemma grows_refl (s : CrawlState) : Grows s s :=
  ⟨fun _ h => h, fun _ h => h⟩

lemma grows_trans {s t r : CrawlState} (h1 : Grows s t) (h2 : Grows t r) : Grows s r :=
  ⟨fun u hu => h2.1 u (h1.1 u hu), fun u hu => h2.2 u (h1.2 u hu)⟩

lemma isValidUrl_false_of_visited (L : UrlLib) (s : CrawlState) (u : String)
    (h : u ∈ s.visited) : isValidUrl L s u = false := by
  simp [isValidUrl, h]

lemma not_visited_of_isValidUrl (L : UrlLib) (s : CrawlState) (u : String)
    (h : isValidUrl L s u = true) : u ∉ s.visited := by
  intro hm
  rw [isValidUrl_false_of_visited L s u hm] at h
  exact Bool.false_ne_true h

/-- A crawl on an already-visited URL is a no-op, for every fuel. -/
lemma crawlPage_visited (L : UrlLib) (w : CrawlWorld) (anon : Bool)
    (maxDepth fuel depth : Nat) (u : String) (s : CrawlState)
    (h : u ∈ s.visited) : crawlPage L w anon maxDepth fuel u depth s = s := by
  cases fuel with
  | zero => rfl
  | succ n =>
    simp only [crawlPage, isValidUrl_false_of_visited L s u h]
    simp

/-- Marking a fresh URL visited and logging its fetch preserves the
invariant. -/
lemma crawlInv_mark (s : CrawlState) (url : String) (hs : CrawlInv s)
    (hnv : url ∉ s.visited) :
    CrawlInv { s with visited := s.visited ++ [url], fetchLog := s.fetchLog ++ [url] } := by
  obtain ⟨hnd, hsub⟩ := hs
  constructor
  · have hul : url ∉ s.fetchLog := fun hm => hnv (hsub url hm)
    simp [List.nodup_append, hnd, hul]
  · intro u hu
    rcases List.mem_append.mp hu with h | h
    · exact List.mem_append.mpr (Or.inl (hsub u h))
    · exact List.mem_append.mpr (Or.inr h)

lemma grows_mark (s : CrawlState) (url : String) :
    Grows s { s with visited := s.visited ++ [url], fetchLog := s.fetchLog ++ [url] } :=
  ⟨fun u hu => List.mem_append.mpr (Or.inl hu), fun u hu => List.mem_append.mpr (Or.inl hu)⟩

/-- Folding an invariant- and growth-preserving step preserves the
invariant and growth. -/
lemma foldl_inv_grows {α : Type} (f : CrawlState → α → CrawlState)
    (hf : ∀ t a, CrawlInv t → CrawlInv (f t a) ∧ Grows t (f t a)) :
    ∀ (l : List α) (s : CrawlState), CrawlInv s →
      CrawlInv (l.foldl f s) ∧ Grows s (l.foldl f s) := by
  intro l
  induction l with
  | nil => exact fun s h => ⟨h, grows_refl s⟩
  | cons a rest ihl =>
    intro s h
    have h1 := hf s a h
    have h2 := ihl (f s a) h1.1
    exact ⟨h2.1, grows_trans h1.2 h2.2⟩

/-- One link-classification step preserves the invariant and growth,
provided the recursive continuation does. -/
lemma processLink_inv_grows (L : UrlLib) (maxDepth : Nat)
    (rec : String → Nat → CrawlState → CrawlState)
    (hrec : ∀ u d t, CrawlInv t → CrawlInv (rec u d t) ∧ Grows t (rec u d t))
    (url : String) (depth : Nat) :
    ∀ t href, CrawlInv t →
      CrawlInv (processLink L maxDepth rec url depth t href) ∧
      Grows t (processLink L maxDepth rec url depth t href) := by
  intro t href h
  simp only [processLink]
  by_cases hig : shouldIgnoreUrl L (L.join url href) = true
  · simp only [hig, if_true]
    exact ⟨h, grows_refl t⟩
  · simp only [hig, if_false, Bool.false_eq_true]
    by_cases hdoc : isDocumentUrl L (L.join url href) = true
    · simp only [hdoc, if_true]
      exact ⟨⟨h.1, h.2⟩, ⟨fun _ hu => hu, fun _ hu => hu⟩⟩
    · simp only [hdoc, if_false, Bool.false_eq_true]
      by_cases hdep : depth < maxDepth
      · simp only [hdep, if_true]
        exact hrec _ _ t h
      · simp only [hdep, if_false]
        exact ⟨h, grows_refl t⟩

/-- Main preservation lemma: `crawl_page` preserves the crawl-state
invariant and only grows the visited set and the fetch log. -/
lemma crawlPage_inv_grows (L : UrlLib) (w : CrawlWorld) (anon : Bool) (maxDepth : Nat) :
    ∀ fuel url depth s, CrawlInv s →
      CrawlInv (crawlPage L w anon maxDepth fuel url depth s) ∧
      Grows s (crawlPage L w anon maxDepth fuel url depth s) := by
  intro fuel
  induction fuel with
  | zero => exact fun url depth s h => ⟨h, grows_refl s⟩
  | succ n ih =>
    intro url depth s hs
    by_cases hguard : (decide (depth > maxDepth) || !isValidUrl L s url) = true
    · simp only [crawlPage, hguard]
      simp only [if_true]
      exact ⟨hs, grows_refl s⟩
    · have hv : isValidUrl L s url = true := by
        have hfalse := Bool.eq_false_iff.mpr hguard
        rcases Bool.or_eq_false_iff.mp hfalse with ⟨-, h2⟩
        simpa using h2
      have hnv := not_visited_of_isValidUrl L s url hv
      have hmark := crawlInv_mark s url hs hnv
      have hgmark := grows_mark s url
      simp only [crawlPage]
      rw [if_neg hguard]
      set s1 : CrawlState :=
        { s with visited := s.visited ++ [url], fetchLog := s.fetchLog ++ [url] } with hs1
      cases hw : w s1.rotations url with
      | err =>
        by_cases hretry : (anon && decide (depth ≤ 1)) = true
        · simp only [hretry, if_true]
          have h2 := ih url depth { s1 with rotations := s1.rotations + 1 }
            ⟨hmark.1, hmark.2⟩
          exact ⟨h2.1, grows_trans hgmark h2.2⟩
        · simp only [hretry]
          simp only [if_false, Bool.false_eq_true]
          exact ⟨hmark, hgmark⟩
      | ok status ct hrefs =>
        by_cases hst : (status != 200) = true
        · simp only [hst, if_true]
          exact ⟨hmark, hgmark⟩
        · simp only [hst]
          simp only [if_false, Bool.false_eq_true]
          by_cases hdoc : (isDocumentUrl L url || ctIsDocument ct) = true
          · simp only [hdoc, if_true]
            exact ⟨⟨hmark.1, hmark.2⟩, hgmark⟩
          · simp only [hdoc]
            simp only [if_false, Bool.false_eq_true]
            by_cases hhtml : strContains ct "text/html" = true
            · simp only [hhtml, if_true]
              have hstep : ∀ t a, CrawlInv t →
                  CrawlInv (processLink L maxDepth (crawlPage L w anon maxDepth n) url depth t a) ∧
                  Grows t (processLink L maxDepth (crawlPage L w anon maxDepth n) url depth t a) :=
                fun t a ht =>
                  processLink_inv_grows L maxDepth (crawlPage L w anon maxDepth n)
                    (fun u d r hr => ih u d r hr) url depth t a ht
              have h2 := foldl_inv_grows _ hstep hrefs s1 hmark
              exact ⟨h2.1, grows_trans hgmark h2.2⟩
            · simp only [hhtml]
              simp only [if_false, Bool.false_eq_true]
              exact ⟨hmark, hgmark⟩

/-! ## Claim theorems: crawl traversal engine -/

/-- C1: during one scan, every URL `crawl_page` processes is put in the
frontier (visited set) before its network request is issued — so every
fetched URL is in the frontier —, the frontier only ever grows, no URL is
fetched twice, and `is_valid_url` returns false for every URL already in
the frontier. -/
theorem crawl_frontier_invariants (L : UrlLib) (w : CrawlWorld) (anon : Bool)
    (maxDepth fuel depth : Nat) (url : String) (s : CrawlState) (hs : CrawlInv s) :
    (∀ u, u ∈ (crawlPage L w anon maxDepth fuel url depth s).fetchLog →
      u ∈ (crawlPage L w anon maxDepth fuel url depth s).visited) ∧
    (∀ u, u ∈ s.visited → u ∈ (crawlPage L w anon maxDepth fuel url depth s).visited) ∧
    (crawlPage L w anon maxDepth fuel url depth s).fetchLog.Nodup ∧
    (∀ u, u ∈ (crawlPage L w anon maxDepth fuel url depth s).visited →
      isValidUrl L (crawlPage L w anon maxDepth fuel url depth s) u = false) := by
  obtain ⟨hi, hg⟩ := crawlPage_inv_grows L w anon maxDepth fuel url depth s hs
  exact ⟨hi.2, hg.1, hi.1, fun u hu => isValidUrl_false_of_visited L _ u hu⟩

/-- Witness for `crawl_frontier_invariants` on a concrete two-page site. -/
theorem crawl_frontier_invariants_witness :
    CrawlInv initState ∧
    ((∀ u, u ∈ (crawlPage simpleLib wSite false 2 10 "seed" 1 initState).fetchLog →
      u ∈ (crawlPage simpleLib wSite false 2 10 "seed" 1 initState).visited) ∧
    (∀ u, u ∈ initState.visited →
      u ∈ (crawlPage simpleLib wSite false 2 10 "seed" 1 initState).visited) ∧
    (crawlPage simpleLib wSite false 2 10 "seed" 1 initState).fetchLog.Nodup ∧
    (∀ u, u ∈ (crawlPage simpleLib wSite false 2 10 "seed" 1 initState).visited →
      isValidUrl simpleLib (crawlPage simpleLib wSite false 2 10 "seed" 1 initState) u = false)) :=
  ⟨⟨List.nodup_nil, fun u h => absurd h (List.not_mem_nil u)⟩,
   crawl_frontier_invariants simpleLib wSite false 2 10 1 "seed" initState
     ⟨List.nodup_nil, fun u h => absurd h (List.not_mem_nil u)⟩⟩

/-- C8: the normalized absolute form is the deduplication key — if two
(base, href) pairs resolve to the same absolute URL and that node was
already visited via the first path, crawling it again via the second path
is a complete no-op: no network request, no state change. -/
theorem dedup_by_normalized_absolute_form (L : UrlLib) (w : CrawlWorld) (anon : Bool)
    (maxDepth fuel depth : Nat) (s : CrawlState) (b1 h1 b2 h2 : String)
    (hjoin : L.join b1 h1 = L.join b2 h2) (hvis : L.join b1 h1 ∈ s.visited) :
    crawlPage L w anon maxDepth fuel (L.join b2 h2) depth s = s := by
  rw [← hjoin]
  exact crawlPage_visited L w anon maxDepth fuel depth (L.join b1 h1) s hvis

/-- Witness for `dedup_by_normalized_absolute_form`: the node `u` reached
from base `b2` is not revisited after having been visited from `b1`. -/
theorem dedup_by_normalized_absolute_form_witness :
    simpleLib.join "b1" "u" = simpleLib.join "b2" "u" ∧
    simpleLib.join "b1" "u" ∈ (⟨["u"], [], ["u"], 0⟩ : CrawlState).visited ∧
    crawlPage simpleLib wSite false 3 7 (simpleLib.join "b2" "u") 2
      ⟨["u"], [], ["u"], 0⟩ = ⟨["u"], [], ["u"], 0⟩ :=
  ⟨rfl, by decide,
   dedup_by_normalized_absolute_form simpleLib wSite false 3 7 2
     ⟨["u"], [], ["u"], 0⟩ "b1" "u" "b2" "u" rfl (by decide)⟩

/-- Unfolding of `crawl_page` on a valid URL whose fetch raises a
network error. -/
lemma crawlPage_err_unfold (L : UrlLib) (w : CrawlWorld) (anon : Bool)
    (maxDepth fuel depth : Nat) (url : String) (s : CrawlState)
    (hdep : depth ≤ maxDepth) (hv : isValidUrl L s url = true)
    (herr : w s.rotations url = FetchResult.err) :
    crawlPage L w anon maxDepth (fuel + 1) url depth s =
      (if anon && decide (depth ≤ 1) then
        crawlPage L w anon maxDepth fuel url depth
          { s with visited := s.visited ++ [url], fetchLog := s.fetchLog ++ [url],
                   rotations := s.rotations + 1 }
      else { s with visited := s.visited ++ [url], fetchLog := s.fetchLog ++ [url] }) := by
  have hng : ¬((decide (depth > maxDepth) || !isValidUrl L s url) = true) := by
    simp [hv, Nat.not_lt.mpr hdep]
  simp only [crawlPage, herr]
  rw [if_neg hng]

/-- C2 (amended): on a network-level failure fetching a valid URL, if
anonymity is active and the attempt is top-level (depth ≤ 1), exactly one
identity rotation occurs and `crawl_page` is re-invoked once on the same
URL at the same depth, but — the URL having been marked visited before
the request — the re-invocation performs no second network request, and
the branch ends with no documents added; when anonymity is inactive or
the attempt is deeper, the failure is terminal with no rotation and no
retry. -/
theorem crawl_error_rotation_no_refetch (L : UrlLib) (w : CrawlWorld) (anon : Bool)
    (maxDepth fuel depth : Nat) (url : String) (s : CrawlState)
    (hdep : depth ≤ maxDepth) (hv : isValidUrl L s url = true)
    (herr : w s.rotations url = FetchResult.err) :
    (anon = true → depth ≤ 1 →
      crawlPage L w anon maxDepth (fuel + 1) url depth s =
        { s with visited := s.visited ++ [url], fetchLog := s.fetchLog ++ [url],
                 rotations := s.rotations + 1 }) ∧
    (anon = false ∨ 2 ≤ depth →
      crawlPage L w anon maxDepth (fuel + 1) url depth s =
        { s with visited := s.visited ++ [url], fetchLog := s.fetchLog ++ [url] }) := by
  have hu := crawlPage_err_unfold L w anon maxDepth fuel depth url s hdep hv herr
  constructor
  · intro ha hd1
    subst ha
    rw [hu, if_pos (by simp [hd1])]
    exact crawlPage_visited L w true maxDepth fuel depth url _ (by simp)
  · intro hcase
    have hng2 : ¬((anon && decide (depth ≤ 1)) = true) := by
      rcases hcase with rfl | h2
      · simp
      · intro hb
        rw [Bool.and_eq_true] at hb
        have := of_decide_eq_true hb.2
        omega
    rw [hu, if_neg hng2]

/-- Witness for `crawl_error_rotation_no_refetch` at a concrete failing
fetch in both the anonymous top-level and the non-anonymous case. -/
theorem crawl_error_rotation_no_refetch_witness :
    (1 ≤ 3 ∧ isValidUrl simpleLib initState "u" = true ∧
      wFailThenDoc initState.rotations "u" = FetchResult.err) ∧
    crawlPage simpleLib wFailThenDoc true 3 5 "u" 1 initState =
      { initState with visited := ["u"], fetchLog := ["u"], rotations := 1 } ∧
    crawlPage simpleLib wFailThenDoc false 3 5 "u" 1 initState =
      { initState with visited := ["u"], fetchLog := ["u"] } :=
  ⟨⟨by decide, by decide, rfl⟩,
   (crawl_error_rotation_no_refetch simpleLib wFailThenDoc true 3 4 1 "u" initState
     (by decide) (by decide) rfl).1 rfl (by decide),
   (crawl_error_rotation_no_refetch simpleLib wFailThenDoc false 3 4 1 "u" initState
     (by decide) (by decide) rfl).2 (Or.inl rfl)⟩

/-- Counterexample to C2 as stated: after the single identity rotation the
same URL is never actually fetched again — even in a world where the
post-rotation fetch would succeed and yield a document, the fetch log
still holds only one entry for the URL and the branch yields no
documents, so no retry (second fetch attempt) of the same URL occurs. -/
theorem crawl_retry_never_refetches :
    wFailThenDoc 0 "u" = FetchResult.err ∧
    wFailThenDoc 1 "u" = FetchResult.ok 200 "application/pdf" [] ∧
    (crawlPage simpleLib wFailThenDoc true 3 5 "u" 1 initState).rotations = 1 ∧
    (crawlPage simpleLib wFailThenDoc true 3 5 "u" 1 initState).fetchLog = ["u"] ∧
    (crawlPage simpleLib wFailThenDoc true 3 5 "u" 1 initState).documents = [] :=
  ⟨rfl, rfl, by decide, by decide, by decide⟩

/-- C3 (amended): with `maxDepth = 0` the crawl phase of a scan is a
no-op — no URL at all is fetched, the seed included, valid or not, and no
links are extracted — because the traversal starts at depth 1 and
`depth > maxDepth` stops it immediately. -/
theorem depth_zero_crawl_is_noop (L : UrlLib) (w : CrawlWorld) (anon : Bool)
    (fuel : Nat) (seed : String) :
    scanUrlCrawl L w anon 0 fuel seed = initState := by
  cases fuel with
  | zero => rfl
  | succ n => simp [scanUrlCrawl, crawlPage]

/-- Counterexample to C3 as stated: a perfectly valid seed whose fetch
would succeed and produce links is nonetheless never fetched when
`maxDepth = 0` (while with `maxDepth = 1` the same seed is fetched). -/
theorem depth_zero_seed_not_fetched :
    isValidUrl simpleLib initState "seed" = true ∧
    wSite 0 "seed" = FetchResult.ok 200 "text/html" ["a.pdf", "b.jpg", "page2"] ∧
    (scanUrlCrawl simpleLib wSite false 0 10 "seed").fetchLog = [] ∧
    (scanUrlCrawl simpleLib wSite false 1 10 "seed").fetchLog = ["seed"] :=
  ⟨by decide, rfl, by decide, by decide⟩

/-- C6: a link whose extension is in the ignore list is skipped outright
by the classification loop: it is not recorded as a document, not
recursed into (the result does not depend on the recursive continuation
at all), and the state is unchanged — the ignore check runs first, so
this holds regardless of any allow-list match. -/
theorem ignored_extension_never_classified (L : UrlLib) (maxDepth depth : Nat)
    (rec : String → Nat → CrawlState → CrawlState) (url href : String) (s : CrawlState)
    (hig : shouldIgnoreUrl L (L.join url href) = true) :
    processLink L maxDepth rec url depth s href = s := by
  simp [processLink, hig]

/-- Witness for `ignored_extension_never_classified` on a `.jpg` link,
with the real crawl recursion as the continuation. -/
theorem ignored_extension_never_classified_witness :
    shouldIgnoreUrl simpleLib (simpleLib.join "seed" "b.jpg") = true ∧
    processLink simpleLib 3 (crawlPage simpleLib wSite false 3 5) "seed" 1
      initState "b.jpg" = initState :=
  ⟨by decide,
   ignored_extension_never_classified simpleLib 3 1
     (crawlPage simpleLib wSite false 3 5) "seed" "b.jpg" initState (by decide)⟩

/-! ## Claim theorems: retrieval and retry coordinator -/

/-- C7: on a download failure the coordinator, when anonymity is active,
always — at any rotation epoch — rotates identity, obtains a fresh
session and retries the identical request, with no retry budget (against
a persistently failing target it never returns, for any amount of fuel);
when anonymity is inactive a failure immediately returns none with no
rotation and no retry. -/
theorem download_retry_policy (L : UrlLib) (w : DlWorld) (url : String) :
    (∀ fuel k, w k = DlOutcome.exc →
      downloadDocument L false w url (fuel + 1) k = some (none, k)) ∧
    (∀ fuel k, w k = DlOutcome.exc →
      downloadDocument L true w url (fuel + 1) k =
        downloadDocument L true w url fuel (k + 1)) ∧
    ((∀ k, w k = DlOutcome.exc) →
      ∀ fuel k, downloadDocument L true w url fuel k = none) := by
  refine ⟨?_, ?_, ?_⟩
  · intro fuel k hk
    simp [downloadDocument, hk]
  · intro fuel k hk
    simp [downloadDocument, hk]
  · intro hall fuel
    induction fuel with
    | zero => intro k; rfl
    | succ n ihn =>
      intro k
      simp only [downloadDocument, hall k]
      exact ihn (k + 1)

/-- Witness for `download_retry_policy` against an always-failing world:
the non-anonymous call returns none at once, the anonymous call steps to
a retry at the next epoch, and with every attempt failing the anonymous
download never returns. -/
theorem download_retry_policy_witness :
    downloadDocument simpleLib false wDlExc "u" 4 0 = some (none, 0) ∧
    downloadDocument simpleLib true wDlExc "u" 4 0 =
      downloadDocument simpleLib true wDlExc "u" 3 1 ∧
    downloadDocument simpleLib true wDlExc "u" 9 0 = none :=
  ⟨(download_retry_policy simpleLib wDlExc "u").1 3 0 rfl,
   (download_retry_policy simpleLib wDlExc "u").2.1 3 0 rfl,
   (download_retry_policy simpleLib wDlExc "u").2.2 (fun _ => rfl) 9 0⟩

/-- C10: when the URL path yields no extension, the temporary-file suffix
is taken from the declared content type: `.pdf` for `application/pdf`,
`.doc` for `application/msword`, `.docx` for
`application/vnd.openxmlformats`, and `.txt` for anything else; a
successful download returns the temporary base name with that suffix
appended. -/
theorem download_suffix_selection (L : UrlLib) (url ct : String)
    (hext : getFileExtension L url = "") :
    (∀ (anon : Bool) (w : DlWorld) (base : String) (fuel k : Nat),
      w k = DlOutcome.ok 200 ct base →
      downloadDocument L anon w url (fuel + 1) k =
        some (some (base ++ chooseExt L url ct), k)) ∧
    (strContains ct "application/pdf" = true → chooseExt L url ct = ".pdf") ∧
    (strContains ct "application/pdf" = false →
      strContains ct "application/msword" = true → chooseExt L url ct = ".doc") ∧
    (strContains ct "application/pdf" = false →
      strContains ct "application/msword" = false →
      strContains ct "application/vnd.openxmlformats" = true →
      chooseExt L url ct = ".docx") ∧
    (strContains ct "application/pdf" = false →
      strContains ct "application/msword" = false →
      strContains ct "application/vnd.openxmlformats" = false →
      chooseExt L url ct = ".txt") := by
  refine ⟨?_, ?_, ?_, ?_, ?_⟩
  · intro anon w base fuel k hk
    simp [downloadDocument, hk]
  · intro h1
    simp [chooseExt, hext, h1]
  · intro h1 h2
    simp [chooseExt, hext, h1, h2]
  · intro h1 h2 h3
    simp [chooseExt, hext, h1, h2, h3]
  · intro h1 h2 h3
    simp [chooseExt, hext, h1, h2, h3]

/-- Witness for `download_suffix_selection` on an extensionless URL served
as PDF. -/
theorem download_suffix_selection_witness :
    getFileExtension simpleLib "u" = "" ∧
    downloadDocument simpleLib false wDlPdf "u" 2 0 =
      some (some ("tmpbase" ++ chooseExt simpleLib "u" "application/pdf"), 0) ∧
    chooseExt simpleLib "u" "application/pdf" = ".pdf" :=
  ⟨by decide,
   (download_suffix_selection simpleLib "u" "application/pdf" (by decide)).1
     false wDlPdf "tmpbase" 1 0 rfl,
   (download_suffix_selection simpleLib "u" "application/pdf" (by decide)).2.1 (by decide)⟩

/-! ## Claim theorems: anonymous transport manager -/

/-- Counterexample to C5 as stated: with the transport active, an
authentication failure during identity rotation returns immediately with
no settling delay at all (the sleep runs only on the fully successful
path). -/
theorem auth_failure_skips_settling_delay :
    connAnon.useTor = true ∧
    renewTorIdentity connAnon RenewOutcome.authFailure = 0 ∧
    ¬(5 ≤ renewTorIdentity connAnon RenewOutcome.authFailure) :=
  ⟨rfl, rfl, by decide⟩

/-- C5 (amended): with the transport active, the ~5 time-unit settling
delay is enforced only when connecting, authenticating and signalling all
succeed; on any failure inside rotation — authentication failure
included — the handler returns without sleeping. -/
theorem settling_delay_on_success_only (c : AConn) (hc : c.useTor = true) :
    renewTorIdentity c RenewOutcome.ok = 5 ∧
    renewTorIdentity c RenewOutcome.connectFailure = 0 ∧
    renewTorIdentity c RenewOutcome.authFailure = 0 ∧
    renewTorIdentity c RenewOutcome.signalFailure = 0 := by
  simp [renewTorIdentity, hc]

/-- Witness for `settling_delay_on_success_only`. -/
theorem settling_delay_on_success_only_witness :
    connAnon.useTor = true ∧
    (renewTorIdentity connAnon RenewOutcome.ok = 5 ∧
     renewTorIdentity connAnon RenewOutcome.connectFailure = 0 ∧
     renewTorIdentity connAnon RenewOutcome.authFailure = 0 ∧
     renewTorIdentity connAnon RenewOutcome.signalFailure = 0) :=
  ⟨rfl, settling_delay_on_success_only connAnon rfl⟩

/-- Counterexample to C4 as stated: (i) when the live verification step
fails, the handler pops both proxy variables — losing a previously set
HTTP_PROXY value instead of reverting to the snapshot — and then itself
raises (AttributeError from the nonexistent `socket._orig_socket`), so
activation terminates exceptionally with the transport flag still set;
(ii) teardown after a successful activation pops a variable whose
pre-activation value was the empty string instead of restoring that
exact value. -/
theorem env_not_restored_counterexample :
    (startTor true true false false connAnon ⟨some "http://corp:3128", none⟩ =
      Except.error
        ({ connAnon with previousProxy := some (some "http://corp:3128", none) },
          ⟨none, none⟩) ∧
      ({ connAnon with
          previousProxy := some (some "http://corp:3128", none) } : AConn).useTor = true ∧
      (⟨none, none⟩ : Env) ≠ ⟨some "http://corp:3128", none⟩) ∧
    (startTor true true true false connAnon ⟨some "", none⟩ =
      Except.ok
        ({ connAnon with previousProxy := some (some "", none) },
          ⟨some (socksUrl connAnon.torPort), some (socksUrl connAnon.torPort)⟩) ∧
      (stopTor { connAnon with previousProxy := some (some "", none) }
        ⟨some (socksUrl connAnon.torPort), some (socksUrl connAnon.torPort)⟩).2 =
        ⟨none, none⟩ ∧
      (⟨none, none⟩ : Env) ≠ ⟨some "", none⟩) :=
  ⟨⟨rfl, rfl, by decide⟩, ⟨rfl, rfl, by decide⟩⟩

/-- C4 (amended): after a successful activation (probe, optional launch
and live verification all succeed, so `start_tor` returns normally),
teardown restores each proxy environment variable to its pre-activation
value provided that value was either absent or nonempty — absent
variables are removed again, nonempty values are restored exactly, while
an empty-string value would be popped instead.  When the live
verification step fails, activation neither reverts the environment nor
degrades gracefully: the handler pops both proxy variables and then
raises AttributeError before `use_tor` is cleared, so the call
terminates exceptionally with both variables absent (matching the
snapshot only when neither was previously set) and the transport flag
still set. -/
theorem env_restore_behavior (c : AConn) (e : Env) (launch launchOk : Bool)
    (hc : c.useTor = true)
    (h1 : e.httpProxy = none ∨ truthy e.httpProxy = true)
    (h2 : e.httpsProxy = none ∨ truthy e.httpsProxy = true)
    (hl : launch = false ∨ launchOk = true) :
    (∃ c1 e1, startTor true launchOk true launch c e = Except.ok (c1, e1) ∧
      (stopTor c1 e1).2 = e) ∧
    (∃ c1, startTor true launchOk false launch c e = Except.error (c1, ⟨none, none⟩) ∧
      c1.useTor = true) := by
  obtain ⟨ut, tp, cp, pw, prc, pp⟩ := c
  change ut = true at hc
  subst hc
  obtain ⟨ph, ps⟩ := e
  change ph = none ∨ truthy ph = true at h1
  change ps = none ∨ truthy ps = true at h2
  constructor
  · cases launch with
    | false =>
      refine ⟨⟨true, tp, cp, pw, prc, some (ph, ps)⟩,
        ⟨some (socksUrl tp), some (socksUrl tp)⟩, ?_, ?_⟩
      · simp [startTor, configureTorForRequests]
      · cases prc <;> cases ph <;> cases ps <;> simp_all [stopTor, truthy]
    | true =>
      have hok : launchOk = true := by
        rcases hl with h | h
        · exact absurd h (by decide)
        · exact h
      subst hok
      refine ⟨⟨true, tp, cp, pw, true, some (ph, ps)⟩,
        ⟨some (socksUrl tp), some (socksUrl tp)⟩, ?_, ?_⟩
      · simp [startTor, configureTorForRequests]
      · cases ph <;> cases ps <;> simp_all [stopTor, truthy]
  · cases launch with
    | false =>
      exact ⟨⟨true, tp, cp, pw, prc, some (ph, ps)⟩,
        by simp [startTor, configureTorForRequests], rfl⟩
    | true =>
      have hok : launchOk = true := by
        rcases hl with h | h
        · exact absurd h (by decide)
        · exact h
      subst hok
      exact ⟨⟨true, tp, cp, pw, true, some (ph, ps)⟩,
        by simp [startTor, configureTorForRequests], rfl⟩

/-- Witness for `env_restore_behavior` with a nonempty pre-existing
HTTP_PROXY and no pre-existing HTTPS_PROXY. -/
theorem env_restore_behavior_witness :
    connAnon.useTor = true ∧
    ((∃ c1 e1, startTor true true true false connAnon ⟨some "http://corp:3128", none⟩ =
        Except.ok (c1, e1) ∧
        (stopTor c1 e1).2 = ⟨some "http://corp:3128", none⟩) ∧
     (∃ c1, startTor true true false false connAnon ⟨some "http://corp:3128", none⟩ =
        Except.error (c1, ⟨none, none⟩) ∧ c1.useTor = true)) :=
  ⟨rfl, env_restore_behavior connAnon ⟨some "http://corp:3128", none⟩ false true rfl
    (Or.inr (by decide)) (Or.inl rfl) (Or.inl rfl)⟩

/-- C9: when the SOCKS endpoint probe fails and no launch is requested,
activation returns normally (the probe-failure branch returns before the
code path that can raise), with the transport disabled and the
environment untouched, and every session issued on the resulting
connection carries the single stable non-anonymous browser
identification header, not the randomized anonymous header profile. -/
theorem proxy_unreachable_direct_fallback (c : AConn) (e : Env)
    (launchOk verifyOk : Bool) (hc : c.useTor = true) :
    startTor false launchOk verifyOk false c e =
      Except.ok ({ c with useTor := false }, e) ∧
    ({ c with useTor := false } : AConn).useTor = false ∧
    (∀ pick, getSession { c with useTor := false } pick =
      { userAgent := directUserAgent, acceptLanguage := none, dnt := none,
        upgradeInsecureRequests := none }) := by
  refine ⟨?_, ?_, ?_⟩
  · simp [startTor, hc]
  · simp
  · intro pick
    simp [getSession]

/-- Witness for `proxy_unreachable_direct_fallback`. -/
theorem proxy_unreachable_direct_fallback_witness :
    connAnon.useTor = true ∧
    (startTor false false false false connAnon ⟨none, none⟩ =
      Except.ok ({ connAnon with useTor := false }, ⟨none, none⟩) ∧
    ({ connAnon with useTor := false } : AConn).useTor = false ∧
    (∀ pick, getSession ({ connAnon with useTor := false } : AConn) pick =
      { userAgent := directUserAgent, acceptLanguage := none, dnt := none,
        upgradeInsecureRequests := none })) :=
  ⟨rfl, proxy_unreachable_direct_fallback connAnon ⟨none, none⟩ false false rfl⟩
